import Mathlib

/-!
Verification of the Z-leadscrew bed-calibration core of this firmware
(`ZLeadscrewKinematics` in `src/Movement/Kinematics`): the `M671`
configuration handler `Configure`, the eligibility predicate
`SupportsAutoCalibration`, and the calibration routine `DoAutoCalibration`
(derivative matrix, normal equations, Gauss-Jordan solve, residuals, and
the validation gates in front of the actuator interface).

Machine floats are embedded as exact rationals (`ℚ`); where the code can
hold an IEEE NaN (the solved correction vector and the stored
last-correction snapshot) we use `Option ℚ` with `none` standing for NaN,
so that the explicit `std::isnan` gate of the source is representable.
Fixed C arrays are embedded as Lean lists read through `List.getD`, the
out-of-range default standing in for the indeterminate reads the C code
would perform (no claim below exercises those).
-/

/-- MaxLeadscrews from the firmware configuration: fixed capacity of the
leadscrew coordinate and correction arrays. -/
def MaxLeadscrews : Nat := 4

/-- MaxCalibrationPoints from the firmware configuration: bound on the
number of probe points of one calibration run. -/
def MaxCalibrationPoints : Nat := 32

/-- A machine floating-point value: `none` models IEEE NaN, `some q` a
finite value embedded exactly as a rational. -/
abbrev FQ := Option ℚ

/-- Subtraction on machine floats: NaN-propagating. -/
def fqSub : FQ → FQ → FQ
  | some a, some b => some (a - b)
  | _, _ => none

/-- Absolute value on machine floats (`fabsf`): NaN-propagating. -/
def fqAbs : FQ → FQ := Option.map (fun q => |q|)

/-- Division on machine floats: NaN-propagating. -/
def fqDiv : FQ → FQ → FQ
  | some a, some b => some (a / b)
  | _, _ => none

/-- The comparison `v > 0` on machine floats; false on NaN, as in IEEE. -/
def fqGt0 : FQ → Bool
  | some q => decide (0 < q)
  | none => false

/-- State of a `ZLeadscrewKinematics` object: the fields of the C++ class
that the configuration and calibration code reads and writes.
`leadscrewX`, `leadscrewY` and `lastCorrections` are the fixed
`MaxLeadscrews`-element arrays of the class. -/
structure MState where
  numLeadscrews : Nat
  leadscrewX : List ℚ
  leadscrewY : List ℚ
  correctionFactor : ℚ
  maxCorrection : ℚ
  screwPitch : ℚ
  lastCorrections : List FQ
deriving Repr, DecidableEq

/-- The constructor state: no leadscrews configured, correction factor 1.0,
maximum correction 1.0, screw pitch `M3ScrewPitch = 0.5`.  The C++
constructor leaves the three arrays uninitialised; we pick zero buffers. -/
def initialState : MState :=
  { numLeadscrews := 0
  , leadscrewX := [0, 0, 0, 0]
  , leadscrewY := [0, 0, 0, 0]
  , correctionFactor := 1
  , maxCorrection := 1
  , screwPitch := 1/2
  , lastCorrections := [some 0, some 0, some 0, some 0] }

/-- ZLeadscrewKinematics::SupportsAutoCalibration: true when at least two
leadscrews are configured. -/
def supportsAutoCalibration (s : MState) : Bool :=
  decide (2 ≤ s.numLeadscrews)

/-- The M671 parameters one `Configure` call can carry: optional X and Y
coordinate arrays (`gb.Seen` plus `GetFloatArray`) and the optional S
(max correction), P (screw pitch) and F (correction factor) values. -/
structure M671Args where
  xParam : Option (List ℚ)
  yParam : Option (List ℚ)
  sParam : Option ℚ
  pParam : Option ℚ
  fParam : Option ℚ
deriving Repr, DecidableEq

/-- Model of `GCodeBuffer::GetFloatArray` writing into a fixed member array: the
supplied values overwrite the front of the buffer, entries beyond the
supplied count keep their old contents. -/
def writeFront (old new : List ℚ) : List ℚ :=
  new ++ old.drop new.length

/-- The distinguishable replies `Configure` can produce; message text is
abstracted to a tag carrying the data the message interpolates. -/
inductive ConfigReply
  | emptyReply
  | specifyCoords
  | pfsOnly
  | notConfigured
  | reportExisting (xs ys : List ℚ) (factor maxCorr pitch : ℚ)
  | delegated
deriving Repr, DecidableEq

/-- ZLeadscrewKinematics::Configure for M671 (non-CoreXZ): reads the X and
Y arrays into the member buffers, then the S/P/F values into the member
fields, and only then decides which case applies.  Returns the new state,
the boolean result of the C++ function, and the reply tag.  Calls with a
different M-code (or on CoreXZ) are delegated to the base class, which is
outside this corpus and is modelled as a no-op. -/
def configure (s : MState) (mCode : Nat) (isCoreXZ : Bool) (args : M671Args) :
    MState × Bool × ConfigReply :=
  if mCode = 671 ∧ isCoreXZ = false then
    let s1 := match args.xParam with
      | some xs => { s with leadscrewX := writeFront s.leadscrewX xs }
      | none => s
    let s2 := match args.yParam with
      | some ys => { s1 with leadscrewY := writeFront s1.leadscrewY ys }
      | none => s1
    let s3 := { s2 with
                maxCorrection := args.sParam.getD s2.maxCorrection
              , screwPitch := args.pParam.getD s2.screwPitch
              , correctionFactor := args.fParam.getD s2.correctionFactor }
    let seenPFS := args.sParam.isSome || args.pParam.isSome || args.fParam.isSome
    match args.xParam, args.yParam with
    | some xs, some ys =>
      if xs.length = ys.length then
        ({ s3 with lastCorrections := List.replicate MaxLeadscrews (some 0)
                 , numLeadscrews := xs.length }, false, .emptyReply)
      else (s3, true, .specifyCoords)
    | some _, none => (s3, true, .specifyCoords)
    | none, some _ => (s3, true, .specifyCoords)
    | none, none =>
      if seenPFS then (s3, true, .pfsOnly)
      else if s3.numLeadscrews < 2 then (s3, false, .notConfigured)
      else (s3, false,
            .reportExisting (s3.leadscrewX.take s3.numLeadscrews)
              (s3.leadscrewY.take s3.numLeadscrews)
              s3.correctionFactor s3.maxCorrection s3.screwPitch)
  else (s, false, .delegated)

/-- One row of the derivative matrix of `DoAutoCalibration`: the partial
derivatives of the bed height at probe position `(x, y)` with respect to
the 2, 3 or 4 leadscrew adjustments, transcribed from the `switch` on
`numFactors`.  For any other factor count the `switch` writes nothing and
the row is the (unreachable) empty row. -/
def derivRow (lx ly : List ℚ) (numFactors : Nat) (x y : ℚ) : List ℚ :=
  match numFactors with
  | 2 =>
    let x0 := lx.getD 0 0; let x1 := lx.getD 1 0
    let y0 := ly.getD 0 0; let y1 := ly.getD 1 0
    let d2 := (x1 - x0) * (x1 - x0) + (y1 - y0) * (y1 - y0)
    [ -(y1*y1 - y0*y1 - y*(y1 - y0) + x1*x1 - x0*x1 - x*(x1 - x0))/d2
    , -(y0*y0 - y0*y1 + y*(y1 - y0) + x0*x0 - x0*x1 + x*(x1 - x0))/d2 ]
  | 3 =>
    let x0 := lx.getD 0 0; let x1 := lx.getD 1 0; let x2 := lx.getD 2 0
    let y0 := ly.getD 0 0; let y1 := ly.getD 1 0; let y2 := ly.getD 2 0
    let d2 := x1*y2 - x0*y2 - x2*y1 + x0*y1 + x2*y0 - x1*y0
    [ -(x1*y2 - x*y2 - x2*y1 + x*y1 + x2*y - x1*y)/d2
    , (x0*y2 - x*y2 - x2*y0 + x*y0 + x2*y - x0*y)/d2
    , -(x0*y1 - x*y1 - x1*y0 + x*y0 + x1*y - x0*y)/d2 ]
  | 4 =>
    let x0 := lx.getD 0 0; let x1 := lx.getD 1 0
    let x2 := lx.getD 2 0; let x3 := lx.getD 3 0
    let y0 := ly.getD 0 0; let y1 := ly.getD 1 0
    let y2 := ly.getD 2 0; let y3 := ly.getD 3 0
    let x01 := x0 * x1; let x02 := x0 * x2; let x03 := x0 * x3
    let x12 := x1 * x2; let x13 := x1 * x3; let x23 := x2 * x3
    let y01 := y0 * y1; let y02 := y0 * y2; let y03 := y0 * y3
    let y12 := y1 * y2; let y13 := y1 * y3; let y23 := y2 * y3
    let d2 :=   x13*y23 - x03*y23 - x12*y23 + x02*y23 - x23*y13 + x03*y13 + x12*y13 - x01*y13
              + x23*y03 - x13*y03 - x02*y03 + x01*y03 + x23*y12 - x13*y12 - x02*y12 + x01*y12
              - x23*y02 + x03*y02 + x12*y02 - x01*y02 + x13*y01 - x03*y01 - x12*y01 + x02*y01
    let xx0 := x * x0; let xx1 := x * x1; let xx2 := x * x2; let xx3 := x * x3
    let yy0 := y * y0; let yy1 := y * y1; let yy2 := y * y2; let yy3 := y * y3
    [ -(  x13*y23 - xx3*y23 - x12*y23 + xx2*y23 - x23*y13 + xx3*y13 + x12*y13 - xx1*y13
        + x23*yy3 - x13*yy3 - xx2*yy3 + xx1*yy3 + x23*y12 - x13*y12 - xx2*y12 + xx1*y12
        - x23*yy2 + xx3*yy2 + x12*yy2 - xx1*yy2 + x13*yy1 - xx3*yy1 - x12*yy1 + xx2*yy1 )/d2
    ,  (  x03*y23 - xx3*y23 - x02*y23 + xx2*y23 - x23*y03 + xx3*y03 + x02*y03 - xx0*y03
        + x23*yy3 - x03*yy3 - xx2*yy3 + xx0*yy3 + x23*y02 - x03*y02 - xx2*y02 + xx0*y02
        - x23*yy2 + xx3*yy2 + x02*yy2 - xx0*yy2 + x03*yy0 - xx3*yy0 - x02*yy0 + xx2*yy0 )/d2
    , -(  x03*y13 - xx3*y13 - x01*y13 + xx1*y13 - x13*y03 + xx3*y03 + x01*y03 - xx0*y03
        + x13*yy3 - x03*yy3 - xx1*yy3 + xx0*yy3 + x13*y01 - x03*y01 - xx1*y01 + xx0*y01
        - x13*yy1 + xx3*yy1 + x01*yy1 - xx0*yy1 + x03*yy0 - xx3*yy0 - x01*yy0 + xx1*yy0 )/d2
    ,  (  x02*y12 - xx2*y12 - x01*y12 + xx1*y12 - x12*y02 + xx2*y02 + x01*y02 - xx0*y02
        + x12*yy2 - x02*yy2 - xx1*yy2 + xx0*yy2 + x12*y01 - x02*y01 - xx1*y01 + xx0*y01
        - x12*yy1 + xx2*yy1 + x01*yy1 - xx0*yy1 + x02*yy0 - xx2*yy0 - x01*yy0 + xx1*yy0 )/d2 ]
  | _ => []

/-- A probe point: its bed position and the measured height deviation, as
supplied by the probe-point set collaborator. -/
abbrev ProbePoint := ℚ × ℚ × ℚ

/-- The measured heights of the probe set (`GetZHeight`). -/
def zheights (probes : List ProbePoint) : List ℚ :=
  probes.map (fun t => t.2.2)

/-- The N x numFactors derivative matrix built in the first loop of
`DoAutoCalibration`: one `derivRow` per probe point. -/
def derivativeMatrix (s : MState) (numFactors : Nat) (probes : List ProbePoint) :
    List (List ℚ) :=
  probes.map (fun t => derivRow s.leadscrewX s.leadscrewY numFactors t.1 t.2.1)

/-- The augmented normal matrix of the least-squares system: row `i` holds
the Gram entries `sum_k A(k,i)*A(k,j)` for `j < numFactors` followed by the
right-hand side `sum_k A(k,i) * (-height_k)`. -/
def normalMatrix (A : List (List ℚ)) (zs : List ℚ) (numFactors : Nat) :
    List (List ℚ) :=
  (List.range numFactors).map (fun i =>
    ((List.range numFactors).map (fun j =>
        (((List.range zs.length).map
            (fun k => (A.getD k []).getD i 0 * (A.getD k []).getD j 0))).sum))
      ++ [((List.range zs.length).map
            (fun k => (A.getD k []).getD i 0 * (-(zs.getD k 0)))).sum])

/-- One elimination step on a row: subtract the row's entry in the pivot
column times the (normalised) pivot row. -/
def elimRow (col : Nat) (p r : List ℚ) : List ℚ :=
  List.zipWith (fun a b => a - r.getD col 0 * b) r p

/-- Partial pivoting: select the first row of maximal absolute entry in
column `col`, returning it together with the remaining rows. -/
def pickMax (col : Nat) : List (List ℚ) → Option (List ℚ × List (List ℚ))
  | [] => none
  | r :: rs =>
    match pickMax col rs with
    | none => some (r, rs)
    | some (m, rest) =>
      if |m.getD col 0| > |r.getD col 0| then some (m, r :: rest)
      else some (r, rs)

/-- Work loop of the Gauss-Jordan elimination: one pivot column per step.
`fuel` is the number of rows still to be processed (one row is consumed
per step), `done` accumulates the fully reduced rows in pivot-column
order. -/
def gjAux : Nat → Nat → List (List ℚ) → List (List ℚ) → Option (List (List ℚ))
  | _, _, done, [] => some done
  | 0, _, _, _ :: _ => none
  | fuel + 1, col, done, r :: rs =>
    match pickMax col (r :: rs) with
    | none => none
    | some (piv, rest) =>
      if piv.getD col 0 = 0 then none
      else
        let d := piv.getD col 0
        let p := piv.map (fun a => a / d)
        gjAux fuel (col + 1) (done.map (fun q => elimRow col p q) ++ [p])
          (rest.map (fun q => elimRow col p q))

/-- Modelled from the spec: `FixedMatrix::GaussJordan` (the MathLib linear
solver the calibration routine calls) is not part of this corpus; per the
spec it performs in-place Gauss-Jordan elimination with partial pivoting
over the augmented matrix and reports failure when no usable (nonzero)
pivot exists, signalling a singular system.  `none` is the solver's
failure return; on success the reduced rows are returned in pivot order,
the solution occupying the trailing column. -/
def gaussJordan (rows : List (List ℚ)) : Option (List (List ℚ)) :=
  gjAux rows.length 0 [] rows

/-- Extraction of the solution vector after a successful solve:
`solution[i] = normalMatrix(i, numFactors)`. -/
def solutionFrom (M : List (List ℚ)) (numFactors : Nat) : List ℚ :=
  (List.range numFactors).map (fun i => (M.getD i []).getD numFactors 0)

/-- The per-point residuals computed after the solve:
`residual[i] = height_i + sum_j solution[j] * A(i, j)`. -/
def residualsFrom (A : List (List ℚ)) (zs : List ℚ) (sol : List ℚ)
    (numFactors : Nat) : List ℚ :=
  (List.range zs.length).map (fun i =>
    zs.getD i 0 +
      ((List.range numFactors).map
        (fun j => sol.getD j 0 * (A.getD i []).getD j 0)).sum)

/-- The in-place scaling loop of the validation phase: each non-NaN solved
component is multiplied by the correction factor; NaN components are left
alone (`Option.map` does exactly this). -/
def scaledSolution (cf : ℚ) (sol : List FQ) : List FQ :=
  sol.map (Option.map (fun q => q * cf))

/-- The `haveNaN` flag of the validation loop: some solved component is
NaN. -/
def haveNaN (sol : List FQ) : Bool :=
  sol.any (fun v => v.isNone)

/-- The `haveLargeCorrection` flag: some scaled component exceeds the
configured maximum correction in magnitude (NaN components are skipped by
the source's `else` branch). -/
def haveLargeCorrection (maxCorr : ℚ) (scaled : List FQ) : Bool :=
  scaled.any (fun v =>
    match v with
    | some q => decide (maxCorr < |q|)
    | none => false)

/-- Model of `AppendCorrections`: the values interpolated into the reply are the
first `numLeadscrews` entries of the given corrections array. -/
def appendCorrections (n : Nat) (corr : List FQ) : List FQ :=
  (List.range n).map (fun i => corr.getD i none)

/-- Overwrite the first `n` entries of the stored last-correction array
with the given values, keeping the rest. -/
def updateFront (old upd : List FQ) (n : Nat) : List FQ :=
  (List.range old.length).map (fun i =>
    if i < n then upd.getD i none else old.getD i none)

/-- The relative corrections of manual mode:
`netAdjustment[i] = solution[i] - solution[0]` for each leadscrew. -/
def netAdjustments (n : Nat) (scaled : List FQ) : List FQ :=
  (List.range n).map (fun i => fqSub (scaled.getD i none) (scaled.getD 0 none))

/-- The per-screw manual-mode report: number of turns
(`fabsf(netAdjustment)/screwPitch`), direction (`netAdjustment > 0` prints
"down"), and the net adjustment in length units. -/
def manualEntries (pitch : ℚ) (nets : List FQ) : List (FQ × Bool × FQ) :=
  nets.map (fun net => (fqDiv (fqAbs net) (some pitch), fqGt0 net, net))

/-- The distinguishable replies `DoAutoCalibration` can produce; message
text is abstracted to a tag carrying the data the message interpolates. -/
inductive CalibReply
  | emptyCalib
  | factorCountMismatch (numFactors numLeadscrews : Nat)
  | solveFailed
  | calibrationFailedNaN (corrections : List FQ)
  | correctionsExceedLimit (maxCorr : ℚ) (corrections : List FQ)
  | adjustmentsMade (corrections : List FQ)
  | manualCorrections (entries : List (FQ × Bool × FQ))
deriving Repr, DecidableEq

/-- Result of the validation phase of a calibration run: the failure flag,
the argument of the `AdjustLeadscrews` call when the actuator interface
was invoked (`none` otherwise), the reply, and the last-correction
snapshot after the run. -/
structure GateResult where
  failed : Bool
  adjustCalled : Option (List FQ)
  reply : CalibReply
  lastCorrections : List FQ
deriving Repr, DecidableEq

/-- The validation phase of `DoAutoCalibration` (its final block): scale
the solved corrections, reject NaN, then either apply through
`AdjustLeadscrews` (actuator counts matching, no over-limit correction),
reject over-limit corrections, or fall back to the manual report. -/
def checkAndApply (s : MState) (numZDrivers : Nat) (solution : List FQ) :
    GateResult :=
  let scaled := scaledSolution s.correctionFactor solution
  if haveNaN solution then
    { failed := true
    , adjustCalled := none
    , reply := .calibrationFailedNaN (appendCorrections s.numLeadscrews scaled)
    , lastCorrections := s.lastCorrections }
  else if numZDrivers = s.numLeadscrews then
    if haveLargeCorrection s.maxCorrection scaled then
      { failed := true
      , adjustCalled := none
      , reply := .correctionsExceedLimit s.maxCorrection
                   (appendCorrections s.numLeadscrews scaled)
      , lastCorrections := s.lastCorrections }
    else
      { failed := false
      , adjustCalled := some scaled
      , reply := .adjustmentsMade (appendCorrections s.numLeadscrews scaled)
      , lastCorrections := updateFront s.lastCorrections scaled s.numLeadscrews }
  else
    let nets := netAdjustments s.numLeadscrews scaled
    { failed := false
    , adjustCalled := none
    , reply := .manualCorrections (manualEntries s.screwPitch nets)
    , lastCorrections := updateFront s.lastCorrections nets s.numLeadscrews }

/-- Full outcome of one calibration run: the validation-phase results plus
the solved correction vector (before scaling) and the per-point residuals,
both `none`/empty when the run ends before the solve. -/
structure CalibOutcome where
  failed : Bool
  adjustCalled : Option (List FQ)
  reply : CalibReply
  lastCorrections : List FQ
  solution : Option (List ℚ)
  residuals : List ℚ
deriving Repr, DecidableEq

/-- ZLeadscrewKinematics::DoAutoCalibration: the guards (eligibility,
factor count), the derivative matrix, the normal equations, the
Gauss-Jordan solve, the residuals, and the validation phase.
`numZDrivers` is the physical Z actuator count the platform reports.
The return value of the C++ function is the `failed` flag. -/
def doAutoCalibration (s : MState) (numZDrivers : Nat) (numFactors : Nat)
    (probes : List ProbePoint) : CalibOutcome :=
  if supportsAutoCalibration s = false then
    { failed := false, adjustCalled := none, reply := .emptyCalib
    , lastCorrections := s.lastCorrections, solution := none, residuals := [] }
  else if numFactors ≠ s.numLeadscrews then
    { failed := true, adjustCalled := none
    , reply := .factorCountMismatch numFactors s.numLeadscrews
    , lastCorrections := s.lastCorrections, solution := none, residuals := [] }
  else
    let A := derivativeMatrix s numFactors probes
    let zs := zheights probes
    match gaussJordan (normalMatrix A zs numFactors) with
    | none =>
      { failed := true, adjustCalled := none, reply := .solveFailed
      , lastCorrections := s.lastCorrections, solution := none, residuals := [] }
    | some M =>
      let sol := solutionFrom M numFactors
      let g := checkAndApply s numZDrivers (sol.map some)
      { failed := g.failed, adjustCalled := g.adjustCalled, reply := g.reply
      , lastCorrections := g.lastCorrections, solution := some sol
      , residuals := residualsFrom A zs sol numFactors }

/-! ### Helper lemmas -/

/-- A solution vector coming out of the exact solver has no NaN entry. -/
theorem haveNaN_map_some (l : List ℚ) : haveNaN (l.map some) = false := by
  simp [haveNaN]

/-- Unfolding of the eligibility predicate. -/
theorem supportsAutoCalibration_eq_true (s : MState) :
    supportsAutoCalibration s = true ↔ 2 ≤ s.numLeadscrews := by
  simp [supportsAutoCalibration]

/-! ### C2: a failed solve is reported and never reaches the actuator -/

/-- C2: for every calibration run in which the Gauss-Jordan solve of the
normal equations fails (singular system), `DoAutoCalibration` returns the
failure flag with the explanatory reply and the actuator interface
(`AdjustLeadscrews`) is never invoked. -/
theorem C2_solver_failure_no_actuation (s : MState) (drivers nf : Nat)
    (probes : List ProbePoint)
    (hsup : supportsAutoCalibration s = true)
    (hnf : nf = s.numLeadscrews)
    (hsing : gaussJordan
        (normalMatrix (derivativeMatrix s nf probes) (zheights probes) nf) = none) :
    (doAutoCalibration s drivers nf probes).failed = true ∧
    (doAutoCalibration s drivers nf probes).adjustCalled = none ∧
    (doAutoCalibration s drivers nf probes).reply = .solveFailed ∧
    (doAutoCalibration s drivers nf probes).lastCorrections = s.lastCorrections := by
  subst hnf
  simp [doAutoCalibration, hsup, hsing]

/-- Two leadscrews configured at identical positions: the degenerate
geometry of the singular-detection test. -/
def degenState : MState :=
  { numLeadscrews := 2
  , leadscrewX := [0, 0, 0, 0]
  , leadscrewY := [0, 0, 0, 0]
  , correctionFactor := 1
  , maxCorrection := 1
  , screwPitch := 1/2
  , lastCorrections := [some 0, some 0, some 0, some 0] }

/-- Witness for C2: with two leadscrews at identical positions the normal
equations are singular, the run fails, and the actuator is not touched. -/
theorem C2_solver_failure_no_actuation_witness :
    (doAutoCalibration degenState 2 2 [(0,0,1),(1,0,0)]).failed = true ∧
    (doAutoCalibration degenState 2 2 [(0,0,1),(1,0,0)]).adjustCalled = none ∧
    (doAutoCalibration degenState 2 2 [(0,0,1),(1,0,0)]).reply = .solveFailed ∧
    (doAutoCalibration degenState 2 2 [(0,0,1),(1,0,0)]).lastCorrections
      = degenState.lastCorrections :=
  C2_solver_failure_no_actuation degenState 2 2 [(0,0,1),(1,0,0)]
    (by norm_num [supportsAutoCalibration, degenState])
    (by norm_num [degenState])
    (by norm_num [degenState, derivativeMatrix, derivRow, zheights, normalMatrix,
      gaussJordan, gjAux, pickMax, elimRow, List.range_succ])

/-! ### C3: a NaN in the solved vector is rejected -/

/-- C3: for every calibration run whose solved correction vector contains
a NaN component, the failure flag is set, the computed values are
reported, and the actuator interface is never invoked (the last-correction
snapshot is also untouched).  NaN is modelled as `none`; the theorem
quantifies the validation phase of the run over every possible solved
vector. -/
theorem C3_nan_rejected (s : MState) (numZDrivers : Nat) (sol : List FQ)
    (hnan : none ∈ sol) :
    (checkAndApply s numZDrivers sol).failed = true ∧
    (checkAndApply s numZDrivers sol).adjustCalled = none ∧
    (checkAndApply s numZDrivers sol).reply =
      .calibrationFailedNaN
        (appendCorrections s.numLeadscrews (scaledSolution s.correctionFactor sol)) ∧
    (checkAndApply s numZDrivers sol).lastCorrections = s.lastCorrections := by
  have h : haveNaN sol = true := by
    simp only [haveNaN, List.any_eq_true]
    exact ⟨none, hnan, rfl⟩
  simp [checkAndApply, h]

/-- Witness for C3: a concrete solution vector with a NaN first component
is rejected by the validation phase. -/
theorem C3_nan_rejected_witness :
    (checkAndApply degenState 2 [none, some 1]).failed = true ∧
    (checkAndApply degenState 2 [none, some 1]).adjustCalled = none ∧
    (checkAndApply degenState 2 [none, some 1]).reply =
      .calibrationFailedNaN
        (appendCorrections degenState.numLeadscrews
          (scaledSolution degenState.correctionFactor [none, some 1])) ∧
    (checkAndApply degenState 2 [none, some 1]).lastCorrections
      = degenState.lastCorrections :=
  C3_nan_rejected degenState 2 [none, some 1] (by simp)

/-! ### C6: factor count mismatch -/

/-- Counterexample for C6 as stated: with no leadscrews configured and a
mismatched factor count, `DoAutoCalibration` returns `false` (no failure
flag) and writes no message, because the eligibility guard exits first. -/
theorem C6_factor_mismatch_counterexample :
    (doAutoCalibration initialState 2 3 []).failed = false ∧
    (doAutoCalibration initialState 2 3 []).reply = .emptyCalib := by
  norm_num [doAutoCalibration, supportsAutoCalibration, initialState]

/-- C6 (amended): for every call with at least two leadscrews configured
and `numFactors` different from the leadscrew count, the run is rejected
with the failure flag and the explanatory reply before any
derivative-matrix or normal-equation computation, and no state is
modified. -/
theorem C6_factor_mismatch_amended (s : MState) (drivers nf : Nat)
    (probes : List ProbePoint)
    (hsup : supportsAutoCalibration s = true)
    (hne : nf ≠ s.numLeadscrews) :
    (doAutoCalibration s drivers nf probes).failed = true ∧
    (doAutoCalibration s drivers nf probes).reply =
      .factorCountMismatch nf s.numLeadscrews ∧
    (doAutoCalibration s drivers nf probes).adjustCalled = none ∧
    (doAutoCalibration s drivers nf probes).lastCorrections = s.lastCorrections ∧
    (doAutoCalibration s drivers nf probes).solution = none ∧
    (doAutoCalibration s drivers nf probes).residuals = [] := by
  simp [doAutoCalibration, hsup, hne]

/-- Witness for the amended C6: three factors requested with two
leadscrews configured. -/
theorem C6_factor_mismatch_amended_witness :
    (doAutoCalibration degenState 2 3 []).failed = true ∧
    (doAutoCalibration degenState 2 3 []).reply = .factorCountMismatch 3 2 ∧
    (doAutoCalibration degenState 2 3 []).adjustCalled = none ∧
    (doAutoCalibration degenState 2 3 []).lastCorrections
      = degenState.lastCorrections ∧
    (doAutoCalibration degenState 2 3 []).solution = none ∧
    (doAutoCalibration degenState 2 3 []).residuals = [] :=
  C6_factor_mismatch_amended degenState 2 3 []
    (by norm_num [supportsAutoCalibration, degenState])
    (by norm_num [degenState])

/-! ### C7: calibration requested with fewer than 2 leadscrews -/

/-- A single configured leadscrew: below the eligibility threshold. -/
def oneScrewState : MState :=
  { numLeadscrews := 1
  , leadscrewX := [5, 0, 0, 0]
  , leadscrewY := [5, 0, 0, 0]
  , correctionFactor := 1
  , maxCorrection := 1
  , screwPitch := 1/2
  , lastCorrections := [some 0, some 0, some 0, some 0] }

/-- Counterexample for C7 as stated: with one configured leadscrew the
call returns `false` (not a failure flag) and writes no operator-facing
message at all, contradicting the claimed message-plus-failure-flag
surfacing. -/
theorem C7_too_few_leadscrews_counterexample :
    (doAutoCalibration oneScrewState 1 1 [(0,0,1)]).failed = false ∧
    (doAutoCalibration oneScrewState 1 1 [(0,0,1)]).reply = .emptyCalib := by
  norm_num [doAutoCalibration, supportsAutoCalibration, oneScrewState]

/-- C7 (amended): for every call made while fewer than 2 leadscrews are
configured, `DoAutoCalibration` returns immediately before any
computation, with no state change, no reply text, and a `false` return
value (not reported as a failure; surfacing the condition is left to the
caller of `SupportsAutoCalibration`). -/
theorem C7_too_few_leadscrews_amended (s : MState) (drivers nf : Nat)
    (probes : List ProbePoint) (h : s.numLeadscrews < 2) :
    doAutoCalibration s drivers nf probes =
      { failed := false, adjustCalled := none, reply := .emptyCalib
      , lastCorrections := s.lastCorrections, solution := none
      , residuals := [] } := by
  have hsup : supportsAutoCalibration s = false := by
    simp only [supportsAutoCalibration, decide_eq_false_iff_not]
    omega
  simp [doAutoCalibration, hsup]

/-- Witness for the amended C7 at a concrete one-leadscrew state. -/
theorem C7_too_few_leadscrews_amended_witness :
    doAutoCalibration oneScrewState 2 1 [(0,0,1)] =
      { failed := false, adjustCalled := none, reply := .emptyCalib
      , lastCorrections := oneScrewState.lastCorrections, solution := none
      , residuals := [] } :=
  C7_too_few_leadscrews_amended oneScrewState 2 1 [(0,0,1)]
    (by norm_num [oneScrewState])

/-! ### C10: a full position reconfiguration resets the snapshot -/

/-- C10: every successful full position reconfiguration (X and Y arrays
both supplied, of equal length) resets every entry of the last-correction
snapshot to 0.0 and stores the new count. -/
theorem C10_snapshot_reset (s : MState) (args : M671Args) (xs ys : List ℚ)
    (hx : args.xParam = some xs) (hy : args.yParam = some ys)
    (hlen : xs.length = ys.length) :
    (configure s 671 false args).1.lastCorrections
      = List.replicate MaxLeadscrews (some 0) ∧
    (configure s 671 false args).2.1 = false ∧
    (configure s 671 false args).1.numLeadscrews = xs.length := by
  simp [configure, hx, hy, hlen]

/-- Witness for C10: reconfiguring two screws resets a nonzero snapshot. -/
theorem C10_snapshot_reset_witness :
    (configure
        { numLeadscrews := 2, leadscrewX := [0,1,0,0], leadscrewY := [0,0,0,0]
        , correctionFactor := 1, maxCorrection := 1, screwPitch := 1/2
        , lastCorrections := [some 3, some 4, some 0, some 0] }
        671 false ⟨some [0, 9], some [0, 9], none, none, none⟩).1.lastCorrections
      = List.replicate MaxLeadscrews (some 0) ∧
    (configure
        { numLeadscrews := 2, leadscrewX := [0,1,0,0], leadscrewY := [0,0,0,0]
        , correctionFactor := 1, maxCorrection := 1, screwPitch := 1/2
        , lastCorrections := [some 3, some 4, some 0, some 0] }
        671 false ⟨some [0, 9], some [0, 9], none, none, none⟩).2.1 = false ∧
    (configure
        { numLeadscrews := 2, leadscrewX := [0,1,0,0], leadscrewY := [0,0,0,0]
        , correctionFactor := 1, maxCorrection := 1, screwPitch := 1/2
        , lastCorrections := [some 3, some 4, some 0, some 0] }
        671 false ⟨some [0, 9], some [0, 9], none, none, none⟩).1.numLeadscrews
      = ([0, 9] : List ℚ).length :=
  C10_snapshot_reset _ _ [0, 9] [0, 9] rfl rfl rfl

/-- Reading an element below the bound from a mapped range. -/
theorem getD_range_map {α : Type} (f : Nat → α) (n i : Nat) (d : α) (h : i < n) :
    ((List.range n).map f).getD i d = f i := by
  simp [List.getD_eq_getElem?_getD, List.getElem?_map, List.getElem?_range, h]

/-- Scaling a NaN-free solution multiplies every component by the factor. -/
theorem scaledSolution_map_some (cf : ℚ) (l : List ℚ) :
    scaledSolution cf (l.map some) = l.map (fun q => some (q * cf)) := by
  simp [scaledSolution]

/-! ### C4: the over-limit gate -/

/-- The configuration of the limit-gate counterexample: correction factor
one half, maximum correction 1. -/
def c4State : MState :=
  { numLeadscrews := 2
  , leadscrewX := [0, 1, 0, 0]
  , leadscrewY := [0, 0, 0, 0]
  , correctionFactor := 1/2
  , maxCorrection := 1
  , screwPitch := 1/2
  , lastCorrections := [some 0, some 0, some 0, some 0] }

/-- Counterexample for C4 as stated: a run whose computed corrections are
`[4, 0]` with correction factor one half reports the scaled values
`[2, 0]` in the over-limit message, not the unscaled computed
corrections. -/
theorem C4_limit_gate_counterexample :
    (doAutoCalibration c4State 2 2 [(0,0,4),(1,0,0)]).failed = true ∧
    (doAutoCalibration c4State 2 2 [(0,0,4),(1,0,0)]).adjustCalled = none ∧
    (doAutoCalibration c4State 2 2 [(0,0,4),(1,0,0)]).reply =
      .correctionsExceedLimit 1 [some 2, some 0] ∧
    (doAutoCalibration c4State 2 2 [(0,0,4),(1,0,0)]).solution = some [4, 0] ∧
    ([some 2, some 0] : List FQ) ≠ [some 4, some 0] := by
  norm_num [doAutoCalibration, supportsAutoCalibration, c4State, derivativeMatrix,
    derivRow, zheights, normalMatrix, gaussJordan, gjAux, pickMax, elimRow,
    List.range_succ, checkAndApply, scaledSolution, haveNaN, haveLargeCorrection,
    appendCorrections, solutionFrom, residualsFrom, updateFront]

/-- C4 (amended): for every calibration run with matching actuator count
whose (NaN-free) solution, scaled by the correction factor, exceeds the
configured maximum in magnitude, the corrections are not applied, the
failure flag is set, and the reported correction values are the scaled
computed corrections. -/
theorem C4_limit_gate_amended (s : MState) (drivers nf : Nat)
    (probes : List ProbePoint) (M : List (List ℚ))
    (hsup : supportsAutoCalibration s = true)
    (hnf : nf = s.numLeadscrews)
    (hdr : drivers = s.numLeadscrews)
    (hGJ : gaussJordan
        (normalMatrix (derivativeMatrix s nf probes) (zheights probes) nf) = some M)
    (hlarge : haveLargeCorrection s.maxCorrection
        (scaledSolution s.correctionFactor
          ((solutionFrom M s.numLeadscrews).map some)) = true) :
    (doAutoCalibration s drivers nf probes).failed = true ∧
    (doAutoCalibration s drivers nf probes).adjustCalled = none ∧
    (doAutoCalibration s drivers nf probes).reply =
      .correctionsExceedLimit s.maxCorrection
        (appendCorrections s.numLeadscrews
          (scaledSolution s.correctionFactor
            ((solutionFrom M s.numLeadscrews).map some))) ∧
    (doAutoCalibration s drivers nf probes).lastCorrections = s.lastCorrections := by
  subst hnf
  subst hdr
  simp [doAutoCalibration, hsup, hGJ, checkAndApply, haveNaN_map_some, hlarge]

/-- Witness for the amended C4 at the concrete over-limit run. -/
theorem C4_limit_gate_amended_witness :
    (doAutoCalibration c4State 2 2 [(0,0,4),(1,0,0)]).failed = true ∧
    (doAutoCalibration c4State 2 2 [(0,0,4),(1,0,0)]).adjustCalled = none ∧
    (doAutoCalibration c4State 2 2 [(0,0,4),(1,0,0)]).reply =
      .correctionsExceedLimit c4State.maxCorrection
        (appendCorrections c4State.numLeadscrews
          (scaledSolution c4State.correctionFactor
            ((solutionFrom [[1,0,4],[0,1,0]] c4State.numLeadscrews).map some))) ∧
    (doAutoCalibration c4State 2 2 [(0,0,4),(1,0,0)]).lastCorrections
      = c4State.lastCorrections :=
  C4_limit_gate_amended c4State 2 2 [(0,0,4),(1,0,0)] [[1,0,4],[0,1,0]]
    (by norm_num [supportsAutoCalibration, c4State])
    (by norm_num [c4State])
    (by norm_num [c4State])
    (by norm_num [c4State, derivativeMatrix, derivRow, zheights, normalMatrix,
      gaussJordan, gjAux, pickMax, elimRow, List.range_succ])
    (by norm_num [c4State, haveLargeCorrection, scaledSolution, solutionFrom,
      List.range_succ])

/-! ### C5: manual fallback when actuator count differs -/

/-- C5: for every calibration run with a successful (NaN-free) solve in
which the physical Z actuator count differs from the configured leadscrew
count, the actuator interface is never invoked (whatever the magnitudes of
the corrections), the run is not reported as a failure, and the reply is
the manual report: per leadscrew the correction relative to the first
leadscrew (the first entry's net adjustment being 0), expressed as turns
of the configured screw pitch. -/
theorem C5_manual_fallback (s : MState) (drivers nf : Nat)
    (probes : List ProbePoint) (M : List (List ℚ))
    (hsup : supportsAutoCalibration s = true)
    (hnf : nf = s.numLeadscrews)
    (hdr : drivers ≠ s.numLeadscrews)
    (hGJ : gaussJordan
        (normalMatrix (derivativeMatrix s nf probes) (zheights probes) nf) = some M) :
    (doAutoCalibration s drivers nf probes).adjustCalled = none ∧
    (doAutoCalibration s drivers nf probes).failed = false ∧
    (doAutoCalibration s drivers nf probes).reply =
      .manualCorrections (manualEntries s.screwPitch
        (netAdjustments s.numLeadscrews
          (scaledSolution s.correctionFactor
            ((solutionFrom M s.numLeadscrews).map some)))) ∧
    (netAdjustments s.numLeadscrews
        (scaledSolution s.correctionFactor
          ((solutionFrom M s.numLeadscrews).map some))).getD 0 none = some 0 := by
  subst hnf
  have h2 : 2 ≤ s.numLeadscrews := (supportsAutoCalibration_eq_true s).mp hsup
  have h0 : 0 < s.numLeadscrews := by omega
  refine ⟨?_, ?_, ?_, ?_⟩
  · simp [doAutoCalibration, hsup, hGJ, checkAndApply, haveNaN_map_some, hdr]
  · simp [doAutoCalibration, hsup, hGJ, checkAndApply, haveNaN_map_some, hdr]
  · simp [doAutoCalibration, hsup, hGJ, checkAndApply, haveNaN_map_some, hdr]
  · rw [scaledSolution_map_some, solutionFrom]
    rw [List.map_map]
    rw [netAdjustments, getD_range_map _ _ _ _ h0]
    rw [getD_range_map _ _ _ _ h0]
    simp [fqSub]

/-- The two-screw configuration of the manual-fallback witness. -/
def c5State : MState :=
  { numLeadscrews := 2
  , leadscrewX := [0, 1, 0, 0]
  , leadscrewY := [0, 0, 0, 0]
  , correctionFactor := 1
  , maxCorrection := 10
  , screwPitch := 1/2
  , lastCorrections := [some 0, some 0, some 0, some 0] }

/-- Witness for C5: a clean solve with three Z drivers but two configured
leadscrews goes to the manual report and never reaches the actuator. -/
theorem C5_manual_fallback_witness :
    (doAutoCalibration c5State 3 2 [(0,0,1),(1,0,0)]).adjustCalled = none ∧
    (doAutoCalibration c5State 3 2 [(0,0,1),(1,0,0)]).failed = false ∧
    (doAutoCalibration c5State 3 2 [(0,0,1),(1,0,0)]).reply =
      .manualCorrections (manualEntries c5State.screwPitch
        (netAdjustments c5State.numLeadscrews
          (scaledSolution c5State.correctionFactor
            ((solutionFrom [[1,0,1],[0,1,0]] c5State.numLeadscrews).map some)))) ∧
    (netAdjustments c5State.numLeadscrews
        (scaledSolution c5State.correctionFactor
          ((solutionFrom [[1,0,1],[0,1,0]] c5State.numLeadscrews).map some))).getD 0 none
      = some 0 :=
  C5_manual_fallback c5State 3 2 [(0,0,1),(1,0,0)] [[1,0,1],[0,1,0]]
    (by norm_num [supportsAutoCalibration, c5State])
    (by norm_num [c5State])
    (by norm_num [c5State])
    (by norm_num [c5State, derivativeMatrix, derivRow, zheights, normalMatrix,
      gaussJordan, gjAux, pickMax, elimRow, List.range_succ])

/-! ### C8: reconfiguration with mismatched X/Y arrays -/

/-- The prior configuration of the mismatched-reconfiguration
counterexample. -/
def c8State : MState :=
  { numLeadscrews := 2
  , leadscrewX := [0, 1, 0, 0]
  , leadscrewY := [0, 0, 0, 0]
  , correctionFactor := 1
  , maxCorrection := 1
  , screwPitch := 1/2
  , lastCorrections := [some 0, some 0, some 0, some 0] }

/-- Counterexample for C8 as stated: an M671 with two X values, one Y
value and `S5` is rejected with the coordinate-count error, yet the stored
maximum correction changes from 1 to 5 and the stored X buffer is
overwritten, because the S/P/F reads and the array reads happen before the
mismatch check. -/
theorem C8_mismatched_arrays_counterexample :
    (configure c8State 671 false ⟨some [7,8], some [9], some 5, none, none⟩).2.1 = true ∧
    (configure c8State 671 false ⟨some [7,8], some [9], some 5, none, none⟩).2.2
      = .specifyCoords ∧
    (configure c8State 671 false ⟨some [7,8], some [9], some 5, none, none⟩).1.maxCorrection
      = 5 ∧
    c8State.maxCorrection = 1 ∧ (5 : ℚ) ≠ 1 ∧
    (configure c8State 671 false ⟨some [7,8], some [9], some 5, none, none⟩).1.leadscrewX
      = [7, 8, 0, 0] ∧
    c8State.leadscrewX = [0, 1, 0, 0] ∧ ([7, 8, 0, 0] : List ℚ) ≠ [0, 1, 0, 0] := by
  norm_num [configure, c8State, writeFront]

/-- C8 (amended): for every M671 reconfiguration whose X and Y arrays have
unequal lengths (or with only one of the two supplied), the call is
rejected with the coordinate-count error, and the leadscrew count and the
last-correction snapshot keep their prior values; however, the supplied
array values do overwrite the front of the stored coordinate buffers, and
any supplied S/P/F values do update maxCorrection, screwPitch and
correctionFactor. -/
theorem C8_mismatched_arrays_amended (s : MState) (args : M671Args)
    (hseen : args.xParam.isSome = true ∨ args.yParam.isSome = true)
    (hne : ∀ xs ys, args.xParam = some xs → args.yParam = some ys →
      xs.length ≠ ys.length) :
    (configure s 671 false args).2.1 = true ∧
    (configure s 671 false args).2.2 = .specifyCoords ∧
    (configure s 671 false args).1.numLeadscrews = s.numLeadscrews ∧
    (configure s 671 false args).1.lastCorrections = s.lastCorrections ∧
    (configure s 671 false args).1.maxCorrection = args.sParam.getD s.maxCorrection ∧
    (configure s 671 false args).1.screwPitch = args.pParam.getD s.screwPitch ∧
    (configure s 671 false args).1.correctionFactor
      = args.fParam.getD s.correctionFactor ∧
    (configure s 671 false args).1.leadscrewX =
      (match args.xParam with
       | some xs => writeFront s.leadscrewX xs
       | none => s.leadscrewX) ∧
    (configure s 671 false args).1.leadscrewY =
      (match args.yParam with
       | some ys => writeFront s.leadscrewY ys
       | none => s.leadscrewY) := by
  obtain ⟨xo, yo, so, po, fo⟩ := args
  cases xo with
  | none =>
    cases yo with
    | none => simp at hseen
    | some ys => simp [configure]
  | some xs =>
    cases yo with
    | none => simp [configure]
    | some ys =>
      have hxy := hne xs ys rfl rfl
      simp [configure, hxy]

/-- Witness for the amended C8 at the concrete mismatched call. -/
theorem C8_mismatched_arrays_amended_witness :
    (configure c8State 671 false ⟨some [7,8], some [9], some 5, none, none⟩).2.1 = true ∧
    (configure c8State 671 false ⟨some [7,8], some [9], some 5, none, none⟩).2.2
      = .specifyCoords ∧
    (configure c8State 671 false ⟨some [7,8], some [9], some 5, none, none⟩).1.numLeadscrews
      = c8State.numLeadscrews ∧
    (configure c8State 671 false ⟨some [7,8], some [9], some 5, none, none⟩).1.lastCorrections
      = c8State.lastCorrections ∧
    (configure c8State 671 false ⟨some [7,8], some [9], some 5, none, none⟩).1.maxCorrection
      = (some (5:ℚ)).getD c8State.maxCorrection ∧
    (configure c8State 671 false ⟨some [7,8], some [9], some 5, none, none⟩).1.screwPitch
      = (none : Option ℚ).getD c8State.screwPitch ∧
    (configure c8State 671 false ⟨some [7,8], some [9], some 5, none, none⟩).1.correctionFactor
      = (none : Option ℚ).getD c8State.correctionFactor ∧
    (configure c8State 671 false ⟨some [7,8], some [9], some 5, none, none⟩).1.leadscrewX
      = (match some ([7,8] : List ℚ) with
         | some xs => writeFront c8State.leadscrewX xs
         | none => c8State.leadscrewX) ∧
    (configure c8State 671 false ⟨some [7,8], some [9], some 5, none, none⟩).1.leadscrewY
      = (match some ([9] : List ℚ) with
         | some ys => writeFront c8State.leadscrewY ys
         | none => c8State.leadscrewY) :=
  C8_mismatched_arrays_amended c8State ⟨some [7,8], some [9], some 5, none, none⟩
    (by simp)
    (by intro xs ys hxs hys
        injection hxs with hxs
        injection hys with hys
        subst hxs
        subst hys
        norm_num)

/-! ### C9: the leadscrew-count invariant after Configure -/

/-- Counterexample for C9 as stated: supplying a single X and a single Y
coordinate is accepted and leaves the stored count at exactly 1, which is
neither 0 nor in 2..4. -/
theorem C9_count_one_counterexample :
    (configure initialState 671 false
        ⟨some [5], some [6], none, none, none⟩).1.numLeadscrews = 1 ∧
    ¬((configure initialState 671 false
          ⟨some [5], some [6], none, none, none⟩).1.numLeadscrews = 0 ∨
      (2 ≤ (configure initialState 671 false
          ⟨some [5], some [6], none, none, none⟩).1.numLeadscrews ∧
        (configure initialState 671 false
          ⟨some [5], some [6], none, none, none⟩).1.numLeadscrews ≤ 4)) := by
  norm_num [configure, initialState]

/-- C9 (amended): after every Configure call (valid argument arrays have
at most `MaxLeadscrews` entries), the stored leadscrew count is at most 4;
it is either unchanged or equal to the common length of the supplied X and
Y arrays, so a count of exactly 1 is reachable, acting as a cleared state
in which auto calibration is not supported. -/
theorem C9_count_invariant_amended (s : MState) (mCode : Nat) (cz : Bool)
    (args : M671Args)
    (hs : s.numLeadscrews ≤ 4)
    (hx : ∀ xs, args.xParam = some xs → xs.length ≤ 4) :
    (configure s mCode cz args).1.numLeadscrews ≤ 4 ∧
    ((configure s mCode cz args).1.numLeadscrews = s.numLeadscrews ∨
      ∃ xs ys, args.xParam = some xs ∧ args.yParam = some ys ∧
        xs.length = ys.length ∧
        (configure s mCode cz args).1.numLeadscrews = xs.length) ∧
    ((configure s mCode cz args).1.numLeadscrews = 1 →
      supportsAutoCalibration (configure s mCode cz args).1 = false) := by
  have hcount : (configure s mCode cz args).1.numLeadscrews = s.numLeadscrews ∨
      ∃ xs ys, args.xParam = some xs ∧ args.yParam = some ys ∧
        xs.length = ys.length ∧
        (configure s mCode cz args).1.numLeadscrews = xs.length := by
    by_cases hm : mCode = 671 ∧ cz = false
    · obtain ⟨xo, yo, so, po, fo⟩ := args
      cases xo with
      | none =>
        cases yo with
        | none =>
          left
          simp only [configure, if_pos hm]
          split_ifs <;> rfl
        | some ys => left; simp [configure, hm]
      | some xs =>
        cases yo with
        | none => left; simp [configure, hm]
        | some ys =>
          by_cases hlen : xs.length = ys.length
          · right
            exact ⟨xs, ys, rfl, rfl, hlen, by simp [configure, hm, hlen]⟩
          · left; simp [configure, hm, hlen]
    · left; simp [configure, hm]
  refine ⟨?_, hcount, fun h1 => by simp [supportsAutoCalibration, h1]⟩
  rcases hcount with h | ⟨xs, ys, hxs, hys, hlen, h⟩
  · omega
  · have := hx xs hxs
    omega

/-- Witness for the amended C9: a valid two-screw reconfiguration from the
initial state. -/
theorem C9_count_invariant_amended_witness :
    (configure initialState 671 false
        ⟨some [1,2], some [3,4], none, none, none⟩).1.numLeadscrews ≤ 4 ∧
    ((configure initialState 671 false
          ⟨some [1,2], some [3,4], none, none, none⟩).1.numLeadscrews
        = initialState.numLeadscrews ∨
      ∃ xs ys, (some [(1:ℚ),2] : Option (List ℚ)) = some xs ∧
        (some [(3:ℚ),4] : Option (List ℚ)) = some ys ∧
        xs.length = ys.length ∧
        (configure initialState 671 false
          ⟨some [1,2], some [3,4], none, none, none⟩).1.numLeadscrews = xs.length) ∧
    ((configure initialState 671 false
          ⟨some [1,2], some [3,4], none, none, none⟩).1.numLeadscrews = 1 →
      supportsAutoCalibration (configure initialState 671 false
        ⟨some [1,2], some [3,4], none, none, none⟩).1 = false) :=
  C9_count_invariant_amended initialState 671 false
    ⟨some [1,2], some [3,4], none, none, none⟩
    (by norm_num [initialState])
    (by intro xs hxs
        injection hxs with hxs
        subst hxs
        norm_num)

/-! ### C1: exact recovery with 3 leadscrews probed at the screw positions -/

/-- A three-leadscrew configuration at the given screw positions. -/
def threeScrewState (x0 y0 x1 y1 x2 y2 cf mc pitch : ℚ) (lc : List FQ) : MState :=
  { numLeadscrews := 3
  , leadscrewX := [x0, x1, x2, 0]
  , leadscrewY := [y0, y1, y2, 0]
  , correctionFactor := cf
  , maxCorrection := mc
  , screwPitch := pitch
  , lastCorrections := lc }

/-- C1 (amended): with 3 configured leadscrews probed exactly at the 3
(non-collinear) screw positions with measured heights `h0, h1, h2`, the
solved correction vector equals `(h0, h1, h2)` and the final per-point
residuals are all 0. -/
theorem C1_exact_recovery_amended (x0 y0 x1 y1 x2 y2 h0 h1 h2 cf mc pitch : ℚ)
    (lc : List FQ) (drivers : Nat)
    (hd2 : x1*y2 - x0*y2 - x2*y1 + x0*y1 + x2*y0 - x1*y0 ≠ 0) :
    (doAutoCalibration (threeScrewState x0 y0 x1 y1 x2 y2 cf mc pitch lc) drivers 3
        [(x0,y0,h0),(x1,y1,h1),(x2,y2,h2)]).solution = some [h0, h1, h2] ∧
    (doAutoCalibration (threeScrewState x0 y0 x1 y1 x2 y2 cf mc pitch lc) drivers 3
        [(x0,y0,h0),(x1,y1,h1),(x2,y2,h2)]).residuals = [0, 0, 0] := by
  have hA : derivativeMatrix (threeScrewState x0 y0 x1 y1 x2 y2 cf mc pitch lc) 3
      [(x0,y0,h0),(x1,y1,h1),(x2,y2,h2)] = [[-1,0,0],[0,-1,0],[0,0,-1]] := by
    simp only [derivativeMatrix, List.map_cons, List.map_nil, derivRow,
      threeScrewState, List.getD, List.getElem?_cons_zero, List.getElem?_cons_succ,
      Option.getD_some]
    norm_num
    repeat' apply And.intro
    all_goals (field_simp; try ring)
  have hzs : zheights [(x0,y0,h0),(x1,y1,h1),(x2,y2,h2)] = [h0, h1, h2] := by
    simp [zheights]
  have hN : normalMatrix [[-1,0,0],[0,-1,0],[0,0,-1]] [h0,h1,h2] 3
      = [[1,0,0,h0],[0,1,0,h1],[0,0,1,h2]] := by
    norm_num [normalMatrix, List.range_succ, List.getD]
  have hGJ : gaussJordan [[1,0,0,h0],[0,1,0,h1],[0,0,1,h2]]
      = some [[1,0,0,h0],[0,1,0,h1],[0,0,1,h2]] := by
    norm_num [gaussJordan, gjAux, pickMax, elimRow, List.getD]
  have hsol : solutionFrom [[1,0,0,h0],[0,1,0,h1],[0,0,1,h2]] 3 = [h0, h1, h2] := by
    norm_num [solutionFrom, List.range_succ, List.getD]
  have hres : residualsFrom [[-1,0,0],[0,-1,0],[0,0,-1]] [h0,h1,h2] [h0,h1,h2] 3
      = [0, 0, 0] := by
    norm_num [residualsFrom, List.range_succ, List.getD]
  have hsup : supportsAutoCalibration (threeScrewState x0 y0 x1 y1 x2 y2 cf mc pitch lc)
      = true := by
    norm_num [supportsAutoCalibration, threeScrewState]
  have hnum : (threeScrewState x0 y0 x1 y1 x2 y2 cf mc pitch lc).numLeadscrews = 3 := rfl
  simp only [doAutoCalibration, hsup, hnum, hA, hzs, hN, hGJ, hsol, hres]
  norm_num

/-- Counterexample for C1 as stated: screws at (0,0), (1,0), (0,1) probed
at the screw positions with heights (1, 2, 3) solve to corrections
`(1, 2, 3)` (with zero residuals), not `(-1, -2, -3)` as claimed: the
solved corrections equal the measured heights, not their negations. -/
theorem C1_sign_counterexample :
    (doAutoCalibration
        (threeScrewState 0 0 1 0 0 1 1 10 (1/2) [some 0, some 0, some 0, some 0])
        3 3 [(0,0,1),(1,0,2),(0,1,3)]).solution = some [1, 2, 3] ∧
    (doAutoCalibration
        (threeScrewState 0 0 1 0 0 1 1 10 (1/2) [some 0, some 0, some 0, some 0])
        3 3 [(0,0,1),(1,0,2),(0,1,3)]).residuals = [0, 0, 0] ∧
    (some [(1:ℚ), 2, 3] : Option (List ℚ)) ≠ some [-1, -2, -3] := by
  norm_num [doAutoCalibration, supportsAutoCalibration, threeScrewState,
    derivativeMatrix, derivRow, zheights, normalMatrix, gaussJordan, gjAux,
    pickMax, elimRow, List.range_succ, List.getD, solutionFrom, residualsFrom]

/-- Witness for the amended C1 at concrete non-collinear screw positions
(0,0), (2,0), (0,2) with measured heights (5, 7, 9). -/
theorem C1_exact_recovery_amended_witness :
    (doAutoCalibration
        (threeScrewState 0 0 2 0 0 2 1 1 (1/2) [some 0, some 0, some 0, some 0])
        3 3 [(0,0,5),(2,0,7),(0,2,9)]).solution = some [5, 7, 9] ∧
    (doAutoCalibration
        (threeScrewState 0 0 2 0 0 2 1 1 (1/2) [some 0, some 0, some 0, some 0])
        3 3 [(0,0,5),(2,0,7),(0,2,9)]).residuals = [0, 0, 0] :=
  C1_exact_recovery_amended 0 0 2 0 0 2 5 7 9 1 1 (1/2)
    [some 0, some 0, some 0, some 0] 3 (by norm_num)
